import Mathlib

/-!
# Event hooks of the VM (`hphp/runtime/vm/event-hook.h`)

A shallow embedding of the inline hook entry points of `EventHook` and of
`checkSurpriseFlags`.  The header only *declares* the slow-path handlers
(`onFunctionCall`, `onFunctionReturn`, ...) and uses `Trace::moduleEnabled`,
`Trace::ringbufferMsg` and `checkConditionFlags` from other translation units,
so these are taken as parameters (`Externals`).  Every call a hook makes to
one of them is recorded, in order, in the `calls` component of its `Outcome`.
-/

namespace HPHP

/-! ## Data model -/

/-- `StringData`: the character data of a VM string. -/
structure StringData where
  data : String
  deriving DecidableEq, Repr

/-- `StringData::size()`: the byte length of the string. -/
def StringData.size (s : StringData) : Nat := s.data.utf8ByteSize

/-- `Func`: the static identity of a function; `fullName()` is its qualified name. -/
structure Func where
  fullName : StringData
  funcId : Nat
  deriving DecidableEq, Repr

/-- `ActRec`: one activation of a function.  The hooks only read `m_func`. -/
structure ActRec where
  m_func : Func
  frameId : Nat
  deriving DecidableEq, Repr

/-- `ObjectData`: the child object handed to `FunctionSuspendR`. -/
structure ObjectData where
  objId : Nat
  deriving DecidableEq, Repr

/-- `Fault`: the in-flight failure record passed to `FunctionUnwind`. -/
structure Fault where
  faultId : Nat
  deriving DecidableEq, Repr

/-- `TypedValue`: a tagged value (`m_data`, `m_type`). -/
structure TypedValue where
  m_data : Int
  m_type : Int
  deriving DecidableEq, Repr

/-- A C++ exception propagating out of a call. -/
structure CppException where
  code : Nat
  deriving DecidableEq, Repr

/-- The two `Trace::RingBufferType` markers used by the hooks. -/
inductive RingBufferType where
  | RBTypeFuncEntry
  | RBTypeFuncExit
  deriving DecidableEq, Repr

/-- The trace module consulted by the hooks (`Trace::ringbuffer`). -/
inductive TraceModule where
  | ringbuffer
  deriving DecidableEq, Repr

/-- One record held by the trace ring buffer: message, length, marker. -/
structure RingBufferEntry where
  msg : String
  len : Nat
  type : RingBufferType
  deriving DecidableEq, Repr

/-- The state the hooks run in.  `surpriseFlags` is
`rds::header()->surpriseFlags` (an `ssize_t`), `ringbuffer` is the content of
the trace sink, `heap` stands for the rest of the VM state, which the hooks
never inspect but which the slow-path handlers may change. -/
structure VMState where
  surpriseFlags : Int
  ringbuffer : List RingBufferEntry
  heap : List Int
  deriving DecidableEq, Repr

/-- A call made by a hook to a function defined outside the header, with its
arguments. -/
inductive ExtCall where
  | ringbufferMsg (msg : String) (len : Nat) (t : RingBufferType)
  | onFunctionCall (ar : ActRec) (funcType : Int)
  | onFunctionResumeAwait (ar : ActRec)
  | onFunctionResumeYield (ar : ActRec)
  | onFunctionSuspendE (suspending : ActRec) (resumableAR : ActRec)
  | onFunctionSuspendR (suspending : ActRec) (child : ObjectData)
  | onFunctionPreReturn (ar : ActRec) (retval : TypedValue)
  | onFunctionReturn (ar : ActRec) (retval : TypedValue)
  | onFunctionUnwind (ar : ActRec) (fault : Fault)
  | onFunctionCallUserFuncArray (invoke_ar : ActRec) (func : Func)
  deriving DecidableEq, Repr

/-- The slow-path handlers are all the external calls except the trace sink. -/
def ExtCall.isHandler : ExtCall → Bool
  | .ringbufferMsg _ _ _ => false
  | _ => true

/-- The trace-sink calls. -/
def ExtCall.isTrace : ExtCall → Bool
  | .ringbufferMsg _ _ _ => true
  | _ => false

/-- The functions the header uses but does not define.  A handler receives its
arguments and the current state and either returns or throws, leaving a new
state.  `Trace::ringbufferMsg` acts on the trace ring buffer.
`onFunctionPreReturn` is not declared in the header; it is given the slot
itself (the hook passes the `TypedValue&` on), so it also yields the slot's new
content. -/
structure Externals where
  moduleEnabled : TraceModule → Nat → VMState → Bool
  ringbufferMsg : String → Nat → RingBufferType → List RingBufferEntry →
    Except CppException Unit × List RingBufferEntry
  checkConditionFlags : VMState → Bool
  onFunctionCall : ActRec → Int → VMState → Except CppException Bool × VMState
  onFunctionResumeAwait : ActRec → VMState → Except CppException Unit × VMState
  onFunctionResumeYield : ActRec → VMState → Except CppException Unit × VMState
  onFunctionSuspendE : ActRec → ActRec → VMState → Except CppException Unit × VMState
  onFunctionSuspendR : ActRec → ObjectData → VMState → Except CppException Unit × VMState
  onFunctionPreReturn : ActRec → TypedValue → VMState →
    Except CppException Unit × TypedValue × VMState
  onFunctionReturn : ActRec → TypedValue → VMState → Except CppException Unit × VMState
  onFunctionUnwind : ActRec → Fault → VMState → Except CppException Unit × VMState
  onFunctionCallUserFuncArray : ActRec → Func → VMState → Except CppException Unit × VMState

/-- What a hook did: the value it returned (or the exception that left it), the
state afterwards, and the external calls it made, oldest first. -/
structure Outcome (α : Type) where
  result : Except CppException α
  state : VMState
  calls : List ExtCall

/-- Outcome of a hook taking a `TypedValue&`: as `Outcome`, plus the content of
the referenced slot afterwards. -/
structure RefOutcome extends Outcome Unit where
  retval : TypedValue

/-- The slow-path handler calls of an outcome. -/
def Outcome.handlerCalls {α : Type} (o : Outcome α) : List ExtCall :=
  o.calls.filter ExtCall.isHandler

/-- The trace records emitted in an outcome. -/
def Outcome.traceCalls {α : Type} (o : Outcome α) : List ExtCall :=
  o.calls.filter ExtCall.isTrace

/-! ## The code -/

/-- `checkSurpriseFlags`: an acquire load of the flag word, converted to `bool`
(non-zero is `true`).  The state after the load is returned with the answer. -/
def checkSurpriseFlags (s : VMState) : Bool × VMState :=
  (decide (s.surpriseFlags ≠ 0), s)

/-- `EventHook::ringbufferEnter`. -/
def ringbufferEnter (env : Externals) (ar : ActRec) (s : VMState) : Outcome Unit :=
  if env.moduleEnabled .ringbuffer 1 s then
    let name := ar.m_func.fullName
    let r := env.ringbufferMsg name.data name.size .RBTypeFuncEntry s.ringbuffer
    { result := r.1
      state := { s with ringbuffer := r.2 }
      calls := [.ringbufferMsg name.data name.size .RBTypeFuncEntry] }
  else
    { result := .ok (), state := s, calls := [] }

/-- `EventHook::ringbufferExit`. -/
def ringbufferExit (env : Externals) (ar : ActRec) (s : VMState) : Outcome Unit :=
  if env.moduleEnabled .ringbuffer 1 s then
    let name := ar.m_func.fullName
    let r := env.ringbufferMsg name.data name.size .RBTypeFuncExit s.ringbuffer
    { result := r.1
      state := { s with ringbuffer := r.2 }
      calls := [.ringbufferMsg name.data name.size .RBTypeFuncExit] }
  else
    { result := .ok (), state := s, calls := [] }

/-- The shape shared by the `void` hooks: after the trace step `t`, if it
returned, `if (UNLIKELY(checkSurpriseFlags())) { handler(...); }`.  An exception
from the trace step leaves the hook at once. -/
def guardedCall (t : Outcome Unit) (c : ExtCall)
    (handler : VMState → Except CppException Unit × VMState) : Outcome Unit :=
  match t.result with
  | .error e => { result := .error e, state := t.state, calls := t.calls }
  | .ok () =>
    let chk := checkSurpriseFlags t.state
    if chk.1 then
      let r := handler chk.2
      { result := r.1, state := r.2, calls := t.calls ++ [c] }
    else
      { result := .ok (), state := chk.2, calls := t.calls }

/-- `EventHook::FunctionCall`. -/
def FunctionCall (env : Externals) (ar : ActRec) (funcType : Int) (s : VMState) :
    Outcome Bool :=
  let t := ringbufferEnter env ar s
  match t.result with
  | .error e => { result := .error e, state := t.state, calls := t.calls }
  | .ok () =>
    let chk := checkSurpriseFlags t.state
    if chk.1 then
      let r := env.onFunctionCall ar funcType chk.2
      { result := r.1, state := r.2, calls := t.calls ++ [.onFunctionCall ar funcType] }
    else
      { result := .ok true, state := chk.2, calls := t.calls }

/-- `EventHook::FunctionResumeAwait`. -/
def FunctionResumeAwait (env : Externals) (ar : ActRec) (s : VMState) : Outcome Unit :=
  guardedCall (ringbufferEnter env ar s) (.onFunctionResumeAwait ar)
    (env.onFunctionResumeAwait ar)

/-- `EventHook::FunctionResumeYield`. -/
def FunctionResumeYield (env : Externals) (ar : ActRec) (s : VMState) : Outcome Unit :=
  guardedCall (ringbufferEnter env ar s) (.onFunctionResumeYield ar)
    (env.onFunctionResumeYield ar)

/-- `EventHook::FunctionSuspendE`: the trace record is for `resumableAR`. -/
def FunctionSuspendE (env : Externals) (suspending resumableAR : ActRec) (s : VMState) :
    Outcome Unit :=
  guardedCall (ringbufferExit env resumableAR s) (.onFunctionSuspendE suspending resumableAR)
    (env.onFunctionSuspendE suspending resumableAR)

/-- `EventHook::FunctionSuspendR`. -/
def FunctionSuspendR (env : Externals) (suspending : ActRec) (child : ObjectData)
    (s : VMState) : Outcome Unit :=
  guardedCall (ringbufferExit env suspending s) (.onFunctionSuspendR suspending child)
    (env.onFunctionSuspendR suspending child)

/-- `EventHook::FunctionPreReturn`: no trace step (it is commented out); the
gate is `checkConditionFlags()`, and the handler is given the slot. -/
def FunctionPreReturn (env : Externals) (ar : ActRec) (retval : TypedValue) (s : VMState) :
    RefOutcome :=
  if env.checkConditionFlags s then
    let r := env.onFunctionPreReturn ar retval s
    { result := r.1, retval := r.2.1, state := r.2.2,
      calls := [.onFunctionPreReturn ar retval] }
  else
    { result := .ok (), retval := retval, state := s, calls := [] }

/-- `EventHook::FunctionReturn`: `onFunctionReturn` takes the value of the slot
(`TypedValue retval`, by value). -/
def FunctionReturn (env : Externals) (ar : ActRec) (retval : TypedValue) (s : VMState) :
    RefOutcome :=
  { toOutcome := guardedCall (ringbufferExit env ar s) (.onFunctionReturn ar retval)
      (env.onFunctionReturn ar retval)
    retval := retval }

/-- `EventHook::FunctionUnwind`. -/
def FunctionUnwind (env : Externals) (ar : ActRec) (fault : Fault) (s : VMState) :
    Outcome Unit :=
  guardedCall (ringbufferExit env ar s) (.onFunctionUnwind ar fault)
    (env.onFunctionUnwind ar fault)

/-- `EventHook::FunctionCallUserFuncArray`. -/
def FunctionCallUserFuncArray (env : Externals) (invoke_ar : ActRec) (func : Func)
    (s : VMState) : Outcome Unit :=
  let r := env.onFunctionCallUserFuncArray invoke_ar func s
  { result := r.1, state := r.2, calls := [.onFunctionCallUserFuncArray invoke_ar func] }

/-- `EventHook::onFunctionReturnJit`: the call of `onFunctionPreReturn` is
inside `#if 0` and so not compiled; only `onFunctionReturn` is called. -/
def onFunctionReturnJit (env : Externals) (ar : ActRec) (retval : TypedValue) (s : VMState) :
    Outcome Unit :=
  let r := env.onFunctionReturn ar retval s
  { result := r.1, state := r.2, calls := [.onFunctionReturn ar retval] }

/-- Reinterpret a 64-bit pattern as the `ssize_t` it denotes (two's complement). -/
def ssizeOfBits (n : Nat) : Int :=
  if n % 2 ^ 64 < 2 ^ 63 then (n % 2 ^ 64 : Nat) else ((n % 2 ^ 64 : Nat) : Int) - 2 ^ 64

/-- The trace sink returns normally in state `s`: if tracing is enabled, every
emission into the current ring buffer returns without throwing. -/
def Externals.traceReturns (env : Externals) (s : VMState) : Prop :=
  env.moduleEnabled .ringbuffer 1 s = true →
    ∀ msg len t, (env.ringbufferMsg msg len t s.ringbuffer).1 = .ok ()

/-! ## Sample collaborators

Concrete trace sinks and handlers, used to evaluate the hooks on explicit
inputs. -/

/-- A trace sink that stores each record at the end of the ring buffer. -/
def appendSink (msg : String) (len : Nat) (t : RingBufferType) (rb : List RingBufferEntry) :
    Except CppException Unit × List RingBufferEntry :=
  (.ok (), rb ++ [{ msg := msg, len := len, type := t }])

/-- A trace sink whose emission throws and stores nothing. -/
def throwingSink (_msg : String) (_len : Nat) (_t : RingBufferType)
    (rb : List RingBufferEntry) : Except CppException Unit × List RingBufferEntry :=
  (.error { code := 7 }, rb)

/-- Handlers that leave a mark on the heap; `onFunctionCall` reports an
interception (`false`) and `onFunctionPreReturn` rewrites the slot.  The
condition check reads the head of the heap; tracing is on iff `tracing`. -/
def sampleExternals (tracing : Bool)
    (sink : String → Nat → RingBufferType → List RingBufferEntry →
      Except CppException Unit × List RingBufferEntry) : Externals where
  moduleEnabled := fun _ _ _ => tracing
  ringbufferMsg := sink
  checkConditionFlags := fun s => s.heap.head? == some 1
  onFunctionCall := fun _ _ s => (.ok false, { s with heap := 10 :: s.heap })
  onFunctionResumeAwait := fun _ s => (.ok (), { s with heap := 11 :: s.heap })
  onFunctionResumeYield := fun _ s => (.ok (), { s with heap := 12 :: s.heap })
  onFunctionSuspendE := fun _ _ s => (.ok (), { s with heap := 13 :: s.heap })
  onFunctionSuspendR := fun _ _ s => (.ok (), { s with heap := 14 :: s.heap })
  onFunctionPreReturn := fun _ v s =>
    (.ok (), { v with m_data := v.m_data + 1 }, { s with heap := 15 :: s.heap })
  onFunctionReturn := fun _ _ s => (.ok (), { s with heap := 16 :: s.heap })
  onFunctionUnwind := fun _ _ s => (.ok (), { s with heap := 17 :: s.heap })
  onFunctionCallUserFuncArray := fun _ _ s => (.ok (), { s with heap := 18 :: s.heap })

/-- The function `foo`. -/
def fooFunc : Func := { fullName := { data := "foo" }, funcId := 1 }

/-- A frame of `foo`. -/
def fooFrame : ActRec := { m_func := fooFunc, frameId := 100 }

/-- The function `C::bar`. -/
def barFunc : Func := { fullName := { data := "C::bar" }, funcId := 2 }

/-- A frame of `C::bar`. -/
def barFrame : ActRec := { m_func := barFunc, frameId := 200 }

/-- A state with the given flag word, an empty ring buffer and heap `[1]`. -/
def stateWithFlags (w : Int) : VMState := { surpriseFlags := w, ringbuffer := [], heap := [1] }

/-- The integer 42 as a tagged value. -/
def tv42 : TypedValue := { m_data := 42, m_type := 10 }

end HPHP

namespace HPHP

/-! ## Basic facts about the trace step and the guarded call -/

theorem checkSurpriseFlags_fst (s : VMState) :
    (checkSurpriseFlags s).1 = decide (s.surpriseFlags ≠ 0) := rfl

theorem checkSurpriseFlags_snd (s : VMState) : (checkSurpriseFlags s).2 = s := rfl

theorem ringbufferEnter_off (env : Externals) (ar : ActRec) (s : VMState)
    (h : env.moduleEnabled .ringbuffer 1 s = false) :
    ringbufferEnter env ar s = { result := .ok (), state := s, calls := [] } := by
  simp [ringbufferEnter, h]

theorem ringbufferExit_off (env : Externals) (ar : ActRec) (s : VMState)
    (h : env.moduleEnabled .ringbuffer 1 s = false) :
    ringbufferExit env ar s = { result := .ok (), state := s, calls := [] } := by
  simp [ringbufferExit, h]

theorem ringbufferEnter_on (env : Externals) (ar : ActRec) (s : VMState)
    (h : env.moduleEnabled .ringbuffer 1 s = true) :
    ringbufferEnter env ar s =
      { result := (env.ringbufferMsg ar.m_func.fullName.data ar.m_func.fullName.size
          .RBTypeFuncEntry s.ringbuffer).1
        state := { s with ringbuffer := (env.ringbufferMsg ar.m_func.fullName.data
          ar.m_func.fullName.size .RBTypeFuncEntry s.ringbuffer).2 }
        calls := [.ringbufferMsg ar.m_func.fullName.data ar.m_func.fullName.size
          .RBTypeFuncEntry] } := by
  simp [ringbufferEnter, h]

theorem ringbufferExit_on (env : Externals) (ar : ActRec) (s : VMState)
    (h : env.moduleEnabled .ringbuffer 1 s = true) :
    ringbufferExit env ar s =
      { result := (env.ringbufferMsg ar.m_func.fullName.data ar.m_func.fullName.size
          .RBTypeFuncExit s.ringbuffer).1
        state := { s with ringbuffer := (env.ringbufferMsg ar.m_func.fullName.data
          ar.m_func.fullName.size .RBTypeFuncExit s.ringbuffer).2 }
        calls := [.ringbufferMsg ar.m_func.fullName.data ar.m_func.fullName.size
          .RBTypeFuncExit] } := by
  simp [ringbufferExit, h]

/-- The trace step never changes the flag word or the heap. -/
theorem ringbufferEnter_frame (env : Externals) (ar : ActRec) (s : VMState) :
    (ringbufferEnter env ar s).state.surpriseFlags = s.surpriseFlags ∧
      (ringbufferEnter env ar s).state.heap = s.heap := by
  unfold ringbufferEnter
  split <;> simp

/-- The trace step never changes the flag word or the heap. -/
theorem ringbufferExit_frame (env : Externals) (ar : ActRec) (s : VMState) :
    (ringbufferExit env ar s).state.surpriseFlags = s.surpriseFlags ∧
      (ringbufferExit env ar s).state.heap = s.heap := by
  unfold ringbufferExit
  split <;> simp

/-- The trace step calls no slow-path handler. -/
theorem ringbufferEnter_handlers (env : Externals) (ar : ActRec) (s : VMState) :
    (ringbufferEnter env ar s).calls.filter ExtCall.isHandler = [] := by
  unfold ringbufferEnter
  split <;> simp [ExtCall.isHandler]

/-- The trace step calls no slow-path handler. -/
theorem ringbufferExit_handlers (env : Externals) (ar : ActRec) (s : VMState) :
    (ringbufferExit env ar s).calls.filter ExtCall.isHandler = [] := by
  unfold ringbufferExit
  split <;> simp [ExtCall.isHandler]

theorem guardedCall_set (t : Outcome Unit) (c : ExtCall)
    (handler : VMState → Except CppException Unit × VMState)
    (ht : t.result = .ok ()) (hf : t.state.surpriseFlags ≠ 0) :
    guardedCall t c handler =
      { result := (handler t.state).1, state := (handler t.state).2,
        calls := t.calls ++ [c] } := by
  unfold guardedCall
  rw [ht]
  simp [checkSurpriseFlags, hf]

theorem guardedCall_clear (t : Outcome Unit) (c : ExtCall)
    (handler : VMState → Except CppException Unit × VMState)
    (ht : t.result = .ok ()) (hf : t.state.surpriseFlags = 0) :
    guardedCall t c handler = { result := .ok (), state := t.state, calls := t.calls } := by
  unfold guardedCall
  rw [ht]
  simp [checkSurpriseFlags, hf]

theorem guardedCall_throw (t : Outcome Unit) (c : ExtCall)
    (handler : VMState → Except CppException Unit × VMState) (e : CppException)
    (ht : t.result = .error e) :
    guardedCall t c handler = { result := .error e, state := t.state, calls := t.calls } := by
  unfold guardedCall
  rw [ht]

theorem FunctionCall_set (env : Externals) (ar : ActRec) (funcType : Int) (s : VMState)
    (ht : (ringbufferEnter env ar s).result = .ok ()) (hf : s.surpriseFlags ≠ 0) :
    FunctionCall env ar funcType s =
      { result := (env.onFunctionCall ar funcType (ringbufferEnter env ar s).state).1
        state := (env.onFunctionCall ar funcType (ringbufferEnter env ar s).state).2
        calls := (ringbufferEnter env ar s).calls ++ [.onFunctionCall ar funcType] } := by
  have hfl := (ringbufferEnter_frame env ar s).1
  unfold FunctionCall
  simp only []
  rw [ht]
  simp [checkSurpriseFlags, hfl, hf]

theorem FunctionCall_clear (env : Externals) (ar : ActRec) (funcType : Int) (s : VMState)
    (ht : (ringbufferEnter env ar s).result = .ok ()) (hf : s.surpriseFlags = 0) :
    FunctionCall env ar funcType s =
      { result := .ok true, state := (ringbufferEnter env ar s).state
        calls := (ringbufferEnter env ar s).calls } := by
  have hfl := (ringbufferEnter_frame env ar s).1
  unfold FunctionCall
  simp only []
  rw [ht]
  simp [checkSurpriseFlags, hfl, hf]

theorem FunctionCall_throw (env : Externals) (ar : ActRec) (funcType : Int) (s : VMState)
    (e : CppException) (ht : (ringbufferEnter env ar s).result = .error e) :
    FunctionCall env ar funcType s =
      { result := .error e, state := (ringbufferEnter env ar s).state
        calls := (ringbufferEnter env ar s).calls } := by
  unfold FunctionCall
  simp only []
  rw [ht]

theorem ringbufferEnter_returns (env : Externals) (ar : ActRec) (s : VMState)
    (h : env.traceReturns s) : (ringbufferEnter env ar s).result = .ok () := by
  cases hm : env.moduleEnabled .ringbuffer 1 s
  · rw [ringbufferEnter_off env ar s hm]
  · rw [ringbufferEnter_on env ar s hm]
    exact h hm _ _ _

theorem ringbufferExit_returns (env : Externals) (ar : ActRec) (s : VMState)
    (h : env.traceReturns s) : (ringbufferExit env ar s).result = .ok () := by
  cases hm : env.moduleEnabled .ringbuffer 1 s
  · rw [ringbufferExit_off env ar s hm]
  · rw [ringbufferExit_on env ar s hm]
    exact h hm _ _ _

theorem traceReturns_appendSink (tracing : Bool) (s : VMState) :
    (sampleExternals tracing appendSink).traceReturns s := by
  intro _ msg len t
  rfl

/-- After a trace step that returned, with a non-zero flag word, the guarded
call makes exactly the one handler call `c`. -/
theorem guardedCall_handlerCalls_set (t : Outcome Unit) (c : ExtCall)
    (handler : VMState → Except CppException Unit × VMState)
    (ht : t.result = .ok ()) (hf : t.state.surpriseFlags ≠ 0)
    (htc : t.calls.filter ExtCall.isHandler = []) (hc : c.isHandler = true) :
    (guardedCall t c handler).handlerCalls = [c] := by
  rw [guardedCall_set t c handler ht hf]
  simp [Outcome.handlerCalls, htc, hc]

/-- With a zero flag word (or a trace step that threw) the guarded call makes no
handler call. -/
theorem guardedCall_handlerCalls_clear (t : Outcome Unit) (c : ExtCall)
    (handler : VMState → Except CppException Unit × VMState)
    (hf : t.state.surpriseFlags = 0)
    (htc : t.calls.filter ExtCall.isHandler = []) :
    (guardedCall t c handler).handlerCalls = [] := by
  cases hr : t.result with
  | error e => rw [guardedCall_throw t c handler e hr]; exact htc
  | ok u => cases u; rw [guardedCall_clear t c handler hr hf]; exact htc

/-- With a zero flag word after the trace step, the guarded call adds nothing
to it: same state, same calls. -/
theorem guardedCall_quiet (t : Outcome Unit) (c : ExtCall)
    (handler : VMState → Except CppException Unit × VMState)
    (hf : t.state.surpriseFlags = 0) :
    (guardedCall t c handler).state = t.state ∧ (guardedCall t c handler).calls = t.calls := by
  cases hr : t.result with
  | error e => rw [guardedCall_throw t c handler e hr]; exact ⟨rfl, rfl⟩
  | ok u => cases u; rw [guardedCall_clear t c handler hr hf]; exact ⟨rfl, rfl⟩

/-- With a zero flag word after the trace step, the guarded call leaves the flag
word zero and the heap as the trace step left it. -/
theorem guardedCall_zero_frame (t : Outcome Unit) (c : ExtCall)
    (handler : VMState → Except CppException Unit × VMState) (s : VMState)
    (hf : t.state.surpriseFlags = 0) (hh : t.state.heap = s.heap) :
    (guardedCall t c handler).state.surpriseFlags = 0 ∧
      (guardedCall t c handler).state.heap = s.heap := by
  rw [(guardedCall_quiet t c handler hf).1]
  exact ⟨hf, hh⟩

/-- With a zero flag word `FunctionCall` adds nothing to its trace step. -/
theorem FunctionCall_flags_zero_frame (env : Externals) (ar : ActRec) (funcType : Int)
    (s : VMState) (hz : s.surpriseFlags = 0) :
    (FunctionCall env ar funcType s).handlerCalls = [] ∧
      (FunctionCall env ar funcType s).state = (ringbufferEnter env ar s).state ∧
      (FunctionCall env ar funcType s).calls = (ringbufferEnter env ar s).calls := by
  cases hr : (ringbufferEnter env ar s).result with
  | error e =>
    rw [FunctionCall_throw env ar funcType s e hr]
    exact ⟨ringbufferEnter_handlers env ar s, rfl, rfl⟩
  | ok u =>
    cases u
    rw [FunctionCall_clear env ar funcType s hr hz]
    exact ⟨ringbufferEnter_handlers env ar s, rfl, rfl⟩

/-- Whatever the flag word, the guarded call makes either no handler call or
exactly the call `c`. -/
theorem guardedCall_handlerCalls_cases (t : Outcome Unit) (c : ExtCall)
    (handler : VMState → Except CppException Unit × VMState)
    (htc : t.calls.filter ExtCall.isHandler = []) (hc : c.isHandler = true) :
    (guardedCall t c handler).handlerCalls = [] ∨
      (guardedCall t c handler).handlerCalls = [c] := by
  by_cases hf : t.state.surpriseFlags = 0
  · exact Or.inl (guardedCall_handlerCalls_clear t c handler hf htc)
  · cases hr : t.result with
    | error e => left; rw [guardedCall_throw t c handler e hr]; exact htc
    | ok u => cases u; exact Or.inr (guardedCall_handlerCalls_set t c handler hr hf htc hc)

/-- After a trace step that returned, the guarded call dispatches on the flag
word alone. -/
theorem guardedCall_returned (t : Outcome Unit) (c : ExtCall)
    (handler : VMState → Except CppException Unit × VMState)
    (ht : t.result = .ok ()) (htc : t.calls.filter ExtCall.isHandler = [])
    (hc : c.isHandler = true) :
    (guardedCall t c handler).handlerCalls =
        (if t.state.surpriseFlags ≠ 0 then [c] else []) ∧
      (guardedCall t c handler).result =
        (if t.state.surpriseFlags ≠ 0 then (handler t.state).1 else .ok ()) := by
  by_cases hf : t.state.surpriseFlags = 0
  · rw [guardedCall_clear t c handler ht hf]
    simp [Outcome.handlerCalls, htc, hf]
  · rw [guardedCall_set t c handler ht hf]
    simp [Outcome.handlerCalls, htc, hc, hf]

/-- After a trace step that threw, the guarded call rethrows and calls no
handler. -/
theorem guardedCall_rethrows (t : Outcome Unit) (c : ExtCall)
    (handler : VMState → Except CppException Unit × VMState) (e : CppException)
    (ht : t.result = .error e) (htc : t.calls.filter ExtCall.isHandler = []) :
    (guardedCall t c handler).result = .error e ∧
      (guardedCall t c handler).handlerCalls = [] := by
  rw [guardedCall_throw t c handler e ht]
  exact ⟨rfl, htc⟩

theorem ssizeOfBits_pow_ne_zero (i : Nat) (hi : i < 64) : ssizeOfBits (2 ^ i) ≠ 0 := by
  have hpos : 0 < 2 ^ i := Nat.pow_pos (by decide)
  have hlt : 2 ^ i < 2 ^ 64 := Nat.pow_lt_pow_right (by decide) hi
  have hmod : 2 ^ i % 2 ^ 64 = 2 ^ i := Nat.mod_eq_of_lt hlt
  unfold ssizeOfBits
  rw [hmod]
  split
  · exact_mod_cast hpos.ne'
  · have h2 : ((2 ^ i : Nat) : Int) < 2 ^ 64 := by exact_mod_cast hlt
    omega

/-- The trace step of the entry hooks, written out: what it leaves as state and
as calls. -/
theorem ringbufferEnter_state_calls (env : Externals) (ar : ActRec) (s : VMState) :
    (ringbufferEnter env ar s).state =
        (if env.moduleEnabled .ringbuffer 1 s = true then
          { s with ringbuffer := (env.ringbufferMsg ar.m_func.fullName.data
              ar.m_func.fullName.size .RBTypeFuncEntry s.ringbuffer).2 }
         else s) ∧
      (ringbufferEnter env ar s).calls =
        (if env.moduleEnabled .ringbuffer 1 s = true then
          [.ringbufferMsg ar.m_func.fullName.data ar.m_func.fullName.size .RBTypeFuncEntry]
         else []) := by
  cases hm : env.moduleEnabled .ringbuffer 1 s
  · rw [ringbufferEnter_off env ar s hm]; simp
  · rw [ringbufferEnter_on env ar s hm]; simp

/-- The trace step of the exit hooks, written out: what it leaves as state and
as calls. -/
theorem ringbufferExit_state_calls (env : Externals) (ar : ActRec) (s : VMState) :
    (ringbufferExit env ar s).state =
        (if env.moduleEnabled .ringbuffer 1 s = true then
          { s with ringbuffer := (env.ringbufferMsg ar.m_func.fullName.data
              ar.m_func.fullName.size .RBTypeFuncExit s.ringbuffer).2 }
         else s) ∧
      (ringbufferExit env ar s).calls =
        (if env.moduleEnabled .ringbuffer 1 s = true then
          [.ringbufferMsg ar.m_func.fullName.data ar.m_func.fullName.size .RBTypeFuncExit]
         else []) := by
  cases hm : env.moduleEnabled .ringbuffer 1 s
  · rw [ringbufferExit_off env ar s hm]; simp
  · rw [ringbufferExit_on env ar s hm]; simp

/-- `FunctionCall` with tracing on, written out by cases on what the emission
did and on the flag word. -/
theorem FunctionCall_tracing_on (env : Externals) (ar : ActRec) (funcType : Int) (s : VMState)
    (hon : env.moduleEnabled .ringbuffer 1 s = true) :
    (∀ e, (env.ringbufferMsg ar.m_func.fullName.data ar.m_func.fullName.size
        .RBTypeFuncEntry s.ringbuffer).1 = .error e →
      FunctionCall env ar funcType s =
        { result := .error e
          state := { s with ringbuffer := (env.ringbufferMsg ar.m_func.fullName.data
            ar.m_func.fullName.size .RBTypeFuncEntry s.ringbuffer).2 }
          calls := [.ringbufferMsg ar.m_func.fullName.data ar.m_func.fullName.size
            .RBTypeFuncEntry] }) ∧
    ((env.ringbufferMsg ar.m_func.fullName.data ar.m_func.fullName.size
        .RBTypeFuncEntry s.ringbuffer).1 = .ok () → s.surpriseFlags = 0 →
      FunctionCall env ar funcType s =
        { result := .ok true
          state := { s with ringbuffer := (env.ringbufferMsg ar.m_func.fullName.data
            ar.m_func.fullName.size .RBTypeFuncEntry s.ringbuffer).2 }
          calls := [.ringbufferMsg ar.m_func.fullName.data ar.m_func.fullName.size
            .RBTypeFuncEntry] }) ∧
    ((env.ringbufferMsg ar.m_func.fullName.data ar.m_func.fullName.size
        .RBTypeFuncEntry s.ringbuffer).1 = .ok () → s.surpriseFlags ≠ 0 →
      FunctionCall env ar funcType s =
        { result := (env.onFunctionCall ar funcType
            { s with ringbuffer := (env.ringbufferMsg ar.m_func.fullName.data
              ar.m_func.fullName.size .RBTypeFuncEntry s.ringbuffer).2 }).1
          state := (env.onFunctionCall ar funcType
            { s with ringbuffer := (env.ringbufferMsg ar.m_func.fullName.data
              ar.m_func.fullName.size .RBTypeFuncEntry s.ringbuffer).2 }).2
          calls := [.ringbufferMsg ar.m_func.fullName.data ar.m_func.fullName.size
            .RBTypeFuncEntry, .onFunctionCall ar funcType] }) := by
  have hen := ringbufferEnter_on env ar s hon
  refine ⟨?_, ?_, ?_⟩
  · intro e he
    rw [FunctionCall_throw env ar funcType s e (by rw [hen]; exact he), hen]
  · intro hr hf
    rw [FunctionCall_clear env ar funcType s (by rw [hen]; exact hr) hf, hen]
  · intro hr hf
    rw [FunctionCall_set env ar funcType s (by rw [hen]; exact hr) hf, hen]
    rfl

/-- `FunctionCall` with tracing off, written out by cases on the flag word. -/
theorem FunctionCall_tracing_off (env : Externals) (ar : ActRec) (funcType : Int) (s : VMState)
    (hoff : env.moduleEnabled .ringbuffer 1 s = false) :
    (s.surpriseFlags = 0 →
      FunctionCall env ar funcType s = { result := .ok true, state := s, calls := [] }) ∧
    (s.surpriseFlags ≠ 0 →
      FunctionCall env ar funcType s =
        { result := (env.onFunctionCall ar funcType s).1
          state := (env.onFunctionCall ar funcType s).2
          calls := [.onFunctionCall ar funcType] }) := by
  have hen := ringbufferEnter_off env ar s hoff
  have hr : (ringbufferEnter env ar s).result = .ok () := by rw [hen]
  refine ⟨?_, ?_⟩
  · intro hf
    rw [FunctionCall_clear env ar funcType s hr hf, hen]
  · intro hf
    rw [FunctionCall_set env ar funcType s hr hf, hen]
    rfl

/-! ## The claims -/

/-- Counterexample to C1 as stated: flag word zero, tracing on, and a trace
sink whose emission throws.  `FunctionCall` does not return `true`: the
exception of the sink leaves it. -/
theorem FunctionCall_flags_zero_counterexample :
    (stateWithFlags 0).surpriseFlags = 0 ∧
      (FunctionCall (sampleExternals true throwingSink) fooFrame 0 (stateWithFlags 0)).result
        = .error { code := 7 } ∧
      (FunctionCall (sampleExternals true throwingSink) fooFrame 0 (stateWithFlags 0)).result
        ≠ .ok true :=
  ⟨rfl, rfl, fun h => nomatch h⟩

/-- C1 (amended): when the surprise-flag word is zero, `FunctionCall` invokes no
slow-path handler at all (neither `onFunctionCall` nor any other `on*`
handler).  With tracing off it returns `true` and does nothing else; with
tracing on it returns `true` when the emission of the enter record returns, the
state differing only by what the sink did to the ring buffer, and it throws what
the emission throws otherwise. -/
theorem FunctionCall_flags_zero (env : Externals) (ar : ActRec) (funcType : Int)
    (s : VMState) (hz : s.surpriseFlags = 0) :
    (FunctionCall env ar funcType s).handlerCalls = [] ∧
    ((ringbufferEnter env ar s).result = .ok () →
      (FunctionCall env ar funcType s).result = .ok true) ∧
    (env.moduleEnabled .ringbuffer 1 s = false →
      FunctionCall env ar funcType s = { result := .ok true, state := s, calls := [] }) ∧
    (env.moduleEnabled .ringbuffer 1 s = true →
      (env.ringbufferMsg ar.m_func.fullName.data ar.m_func.fullName.size
        .RBTypeFuncEntry s.ringbuffer).1 = .ok () →
      FunctionCall env ar funcType s =
        { result := .ok true
          state := { s with ringbuffer := (env.ringbufferMsg ar.m_func.fullName.data
            ar.m_func.fullName.size .RBTypeFuncEntry s.ringbuffer).2 }
          calls := [.ringbufferMsg ar.m_func.fullName.data ar.m_func.fullName.size
            .RBTypeFuncEntry] }) ∧
    (env.moduleEnabled .ringbuffer 1 s = true →
      ∀ e, (env.ringbufferMsg ar.m_func.fullName.data ar.m_func.fullName.size
        .RBTypeFuncEntry s.ringbuffer).1 = .error e →
      FunctionCall env ar funcType s =
        { result := .error e
          state := { s with ringbuffer := (env.ringbufferMsg ar.m_func.fullName.data
            ar.m_func.fullName.size .RBTypeFuncEntry s.ringbuffer).2 }
          calls := [.ringbufferMsg ar.m_func.fullName.data ar.m_func.fullName.size
            .RBTypeFuncEntry] }) := by
  refine ⟨(FunctionCall_flags_zero_frame env ar funcType s hz).1, ?_, ?_, ?_, ?_⟩
  · intro hr
    rw [FunctionCall_clear env ar funcType s hr hz]
  · intro hoff
    exact (FunctionCall_tracing_off env ar funcType s hoff).1 hz
  · intro hon hr
    exact (FunctionCall_tracing_on env ar funcType s hon).2.1 hr hz
  · intro hon e he
    exact (FunctionCall_tracing_on env ar funcType s hon).1 e he

/-- Witness for C1 (amended): flag word zero, frame of `foo`; with a sink that
returns `FunctionCall` returns `true` and the record is in the ring buffer, with
a sink that throws it throws. -/
theorem FunctionCall_flags_zero_witness :
    (FunctionCall (sampleExternals true appendSink) fooFrame 0 (stateWithFlags 0)).handlerCalls
        = [] ∧
      FunctionCall (sampleExternals true appendSink) fooFrame 0 (stateWithFlags 0) =
        { result := .ok true
          state := { surpriseFlags := 0
                     ringbuffer := [{ msg := "foo", len := 3, type := .RBTypeFuncEntry }]
                     heap := [1] }
          calls := [.ringbufferMsg "foo" 3 .RBTypeFuncEntry] } ∧
      FunctionCall (sampleExternals true throwingSink) fooFrame 0 (stateWithFlags 0) =
        { result := .error { code := 7 }
          state := stateWithFlags 0
          calls := [.ringbufferMsg "foo" 3 .RBTypeFuncEntry] } ∧
      FunctionCall (sampleExternals false throwingSink) fooFrame 0 (stateWithFlags 0) =
        { result := .ok true, state := stateWithFlags 0, calls := [] } :=
  ⟨(FunctionCall_flags_zero (sampleExternals true appendSink) fooFrame 0
      (stateWithFlags 0) rfl).1,
   (FunctionCall_flags_zero (sampleExternals true appendSink) fooFrame 0
      (stateWithFlags 0) rfl).2.2.2.1 rfl rfl,
   (FunctionCall_flags_zero (sampleExternals true throwingSink) fooFrame 0
      (stateWithFlags 0) rfl).2.2.2.2 rfl { code := 7 } rfl,
   (FunctionCall_flags_zero (sampleExternals false throwingSink) fooFrame 0
      (stateWithFlags 0) rfl).2.2.1 rfl⟩

/-- Counterexample to C2 as stated: flag word 4, tracing on, and a trace sink
whose emission throws.  `FunctionResumeAwait` and `FunctionSuspendE` throw and
call no handler, so the matching handler is not invoked once. -/
theorem hooks_flags_set_counterexample :
    (stateWithFlags 4).surpriseFlags ≠ 0 ∧
      (FunctionResumeAwait (sampleExternals true throwingSink) fooFrame
        (stateWithFlags 4)).handlerCalls = [] ∧
      (FunctionResumeAwait (sampleExternals true throwingSink) fooFrame
        (stateWithFlags 4)).result = .error { code := 7 } ∧
      (FunctionSuspendE (sampleExternals true throwingSink) fooFrame barFrame
        (stateWithFlags 4)).handlerCalls = [] ∧
      (FunctionSuspendE (sampleExternals true throwingSink) fooFrame barFrame
        (stateWithFlags 4)).handlerCalls ≠ [.onFunctionSuspendE fooFrame barFrame] :=
  ⟨by decide, by decide, rfl, by decide, by decide⟩

/-- C2 (amended): with a non-zero surprise-flag word and a trace sink that
returns normally, each of the seven hooks runs its own slow-path handler exactly
once, on the state its trace step left, with the hook arguments in order, and
runs no other handler: the outcome of the hook is the outcome of that handler
(result and state), its calls are those of the trace step followed by the one
handler call, and `FunctionReturn` leaves the slot as it was.  So `FunctionCall`
returns (or throws) exactly what `onFunctionCall` did, and returns `false` iff
the flag word is non-zero and `onFunctionCall` returned `false`.  The trace
step itself is written out in the last two conjuncts. -/
theorem hooks_flags_set_dispatch (env : Externals) (s : VMState) (ar suspending resumableAR : ActRec)
    (funcType : Int) (child : ObjectData) (retval : TypedValue) (fault : Fault)
    (hsink : env.traceReturns s) :
    (s.surpriseFlags ≠ 0 →
      ((FunctionCall env ar funcType s).handlerCalls = [.onFunctionCall ar funcType] ∧
        (FunctionCall env ar funcType s).result =
          (env.onFunctionCall ar funcType (ringbufferEnter env ar s).state).1) ∧
      (FunctionResumeAwait env ar s).handlerCalls = [.onFunctionResumeAwait ar] ∧
      (FunctionResumeYield env ar s).handlerCalls = [.onFunctionResumeYield ar] ∧
      (FunctionSuspendE env suspending resumableAR s).handlerCalls =
        [.onFunctionSuspendE suspending resumableAR] ∧
      (FunctionSuspendR env suspending child s).handlerCalls =
        [.onFunctionSuspendR suspending child] ∧
      (FunctionReturn env ar retval s).handlerCalls = [.onFunctionReturn ar retval] ∧
      (FunctionUnwind env ar fault s).handlerCalls = [.onFunctionUnwind ar fault]) ∧
    ((FunctionCall env ar funcType s).result = .ok false ↔
      (s.surpriseFlags ≠ 0 ∧
        (env.onFunctionCall ar funcType (ringbufferEnter env ar s).state).1 = .ok false)) ∧
    (s.surpriseFlags ≠ 0 →
      FunctionCall env ar funcType s =
        { result := (env.onFunctionCall ar funcType (ringbufferEnter env ar s).state).1
          state := (env.onFunctionCall ar funcType (ringbufferEnter env ar s).state).2
          calls := (ringbufferEnter env ar s).calls ++ [.onFunctionCall ar funcType] } ∧
      FunctionResumeAwait env ar s =
        { result := (env.onFunctionResumeAwait ar (ringbufferEnter env ar s).state).1
          state := (env.onFunctionResumeAwait ar (ringbufferEnter env ar s).state).2
          calls := (ringbufferEnter env ar s).calls ++ [.onFunctionResumeAwait ar] } ∧
      FunctionResumeYield env ar s =
        { result := (env.onFunctionResumeYield ar (ringbufferEnter env ar s).state).1
          state := (env.onFunctionResumeYield ar (ringbufferEnter env ar s).state).2
          calls := (ringbufferEnter env ar s).calls ++ [.onFunctionResumeYield ar] } ∧
      FunctionSuspendE env suspending resumableAR s =
        { result := (env.onFunctionSuspendE suspending resumableAR
            (ringbufferExit env resumableAR s).state).1
          state := (env.onFunctionSuspendE suspending resumableAR
            (ringbufferExit env resumableAR s).state).2
          calls := (ringbufferExit env resumableAR s).calls ++
            [.onFunctionSuspendE suspending resumableAR] } ∧
      FunctionSuspendR env suspending child s =
        { result := (env.onFunctionSuspendR suspending child
            (ringbufferExit env suspending s).state).1
          state := (env.onFunctionSuspendR suspending child
            (ringbufferExit env suspending s).state).2
          calls := (ringbufferExit env suspending s).calls ++
            [.onFunctionSuspendR suspending child] } ∧
      FunctionReturn env ar retval s =
        { result := (env.onFunctionReturn ar retval (ringbufferExit env ar s).state).1
          state := (env.onFunctionReturn ar retval (ringbufferExit env ar s).state).2
          calls := (ringbufferExit env ar s).calls ++ [.onFunctionReturn ar retval]
          retval := retval } ∧
      FunctionUnwind env ar fault s =
        { result := (env.onFunctionUnwind ar fault (ringbufferExit env ar s).state).1
          state := (env.onFunctionUnwind ar fault (ringbufferExit env ar s).state).2
          calls := (ringbufferExit env ar s).calls ++ [.onFunctionUnwind ar fault] }) ∧
    (∀ a : ActRec,
      (ringbufferEnter env a s).state =
          (if env.moduleEnabled .ringbuffer 1 s = true then
            { s with ringbuffer := (env.ringbufferMsg a.m_func.fullName.data
                a.m_func.fullName.size .RBTypeFuncEntry s.ringbuffer).2 }
           else s) ∧
        (ringbufferEnter env a s).calls =
          (if env.moduleEnabled .ringbuffer 1 s = true then
            [.ringbufferMsg a.m_func.fullName.data a.m_func.fullName.size .RBTypeFuncEntry]
           else [])) ∧
    (∀ a : ActRec,
      (ringbufferExit env a s).state =
          (if env.moduleEnabled .ringbuffer 1 s = true then
            { s with ringbuffer := (env.ringbufferMsg a.m_func.fullName.data
                a.m_func.fullName.size .RBTypeFuncExit s.ringbuffer).2 }
           else s) ∧
        (ringbufferExit env a s).calls =
          (if env.moduleEnabled .ringbuffer 1 s = true then
            [.ringbufferMsg a.m_func.fullName.data a.m_func.fullName.size .RBTypeFuncExit]
           else [])) := by
  have hen := fun a => ringbufferEnter_returns env a s hsink
  have hex := fun a => ringbufferExit_returns env a s hsink
  have fen := fun a => (ringbufferEnter_frame env a s).1
  have fex := fun a => (ringbufferExit_frame env a s).1
  refine ⟨?_, ?_, ?_, fun a => ringbufferEnter_state_calls env a s,
    fun a => ringbufferExit_state_calls env a s⟩
  · intro hf
    refine ⟨⟨?_, ?_⟩, ?_, ?_, ?_, ?_, ?_, ?_⟩
    · rw [FunctionCall_set env ar funcType s (hen ar) hf]
      simp [Outcome.handlerCalls, ringbufferEnter_handlers, ExtCall.isHandler]
    · rw [FunctionCall_set env ar funcType s (hen ar) hf]
    · exact guardedCall_handlerCalls_set _ _ _ (hen ar) (by rw [fen]; exact hf)
        (ringbufferEnter_handlers env ar s) rfl
    · exact guardedCall_handlerCalls_set _ _ _ (hen ar) (by rw [fen]; exact hf)
        (ringbufferEnter_handlers env ar s) rfl
    · exact guardedCall_handlerCalls_set _ _ _ (hex resumableAR) (by rw [fex]; exact hf)
        (ringbufferExit_handlers env resumableAR s) rfl
    · exact guardedCall_handlerCalls_set _ _ _ (hex suspending) (by rw [fex]; exact hf)
        (ringbufferExit_handlers env suspending s) rfl
    · exact guardedCall_handlerCalls_set _ _ _ (hex ar) (by rw [fex]; exact hf)
        (ringbufferExit_handlers env ar s) rfl
    · exact guardedCall_handlerCalls_set _ _ _ (hex ar) (by rw [fex]; exact hf)
        (ringbufferExit_handlers env ar s) rfl
  · by_cases hf : s.surpriseFlags = 0
    · rw [FunctionCall_clear env ar funcType s (hen ar) hf]
      simp [hf]
    · rw [FunctionCall_set env ar funcType s (hen ar) hf]
      simp [hf]
  · intro hf
    refine ⟨FunctionCall_set env ar funcType s (hen ar) hf, ?_, ?_, ?_, ?_, ?_, ?_⟩
    · exact guardedCall_set _ _ _ (hen ar) (by rw [fen]; exact hf)
    · exact guardedCall_set _ _ _ (hen ar) (by rw [fen]; exact hf)
    · exact guardedCall_set _ _ _ (hex resumableAR) (by rw [fex]; exact hf)
    · exact guardedCall_set _ _ _ (hex suspending) (by rw [fex]; exact hf)
    · unfold FunctionReturn
      rw [guardedCall_set _ _ _ (hex ar) (by rw [fex]; exact hf)]
    · exact guardedCall_set _ _ _ (hex ar) (by rw [fex]; exact hf)

/-- Witness for C2 (amended): tracing on with a sink that returns, flag word 4.
The sample handlers leave their mark on the heap (10 for `onFunctionCall`, 16
for `onFunctionReturn`), `onFunctionCall` returns `false`, and so does
`FunctionCall`. -/
theorem hooks_flags_set_dispatch_witness :
    (stateWithFlags 4).surpriseFlags ≠ 0 ∧
      (FunctionCall (sampleExternals true appendSink) fooFrame 0 (stateWithFlags 4)).handlerCalls
        = [.onFunctionCall fooFrame 0] ∧
      (FunctionSuspendE (sampleExternals true appendSink) fooFrame barFrame
        (stateWithFlags 4)).handlerCalls = [.onFunctionSuspendE fooFrame barFrame] ∧
      (FunctionReturn (sampleExternals true appendSink) fooFrame tv42
        (stateWithFlags 4)).handlerCalls = [.onFunctionReturn fooFrame tv42] ∧
      (FunctionCall (sampleExternals true appendSink) fooFrame 0 (stateWithFlags 4)).result
        = .ok false ∧
      FunctionCall (sampleExternals true appendSink) fooFrame 0 (stateWithFlags 4) =
        { result := .ok false
          state := { surpriseFlags := 4
                     ringbuffer := [{ msg := "foo", len := 3, type := .RBTypeFuncEntry }]
                     heap := [10, 1] }
          calls := [.ringbufferMsg "foo" 3 .RBTypeFuncEntry, .onFunctionCall fooFrame 0] } ∧
      FunctionReturn (sampleExternals true appendSink) fooFrame tv42 (stateWithFlags 4) =
        { result := .ok ()
          state := { surpriseFlags := 4
                     ringbuffer := [{ msg := "foo", len := 3, type := .RBTypeFuncExit }]
                     heap := [16, 1] }
          calls := [.ringbufferMsg "foo" 3 .RBTypeFuncExit, .onFunctionReturn fooFrame tv42]
          retval := tv42 } :=
  have h := hooks_flags_set_dispatch (sampleExternals true appendSink) (stateWithFlags 4)
    fooFrame fooFrame barFrame 0 { objId := 5 } tv42 { faultId := 9 }
    (traceReturns_appendSink true (stateWithFlags 4))
  have hne : (stateWithFlags 4).surpriseFlags ≠ 0 := by decide
  ⟨hne, (h.1 hne).1.1, (h.1 hne).2.2.2.1, (h.1 hne).2.2.2.2.2.1, h.2.1.2 ⟨hne, rfl⟩,
    (h.2.2.1 hne).1, (h.2.2.1 hne).2.2.2.2.2.1⟩

/-- Counterexample to C3 as stated: with a zero flag word and tracing switched on,
`FunctionCall` does emit a record to the trace sink, and the ring buffer
changes. -/
theorem fast_path_trace_counterexample :
    (stateWithFlags 0).surpriseFlags = 0 ∧
      (FunctionCall (sampleExternals true appendSink) fooFrame 0 (stateWithFlags 0)).traceCalls
        = [.ringbufferMsg "foo" 3 .RBTypeFuncEntry] ∧
      (FunctionCall (sampleExternals true appendSink) fooFrame 0
        (stateWithFlags 0)).state.ringbuffer
        = [{ msg := "foo", len := 3, type := .RBTypeFuncEntry }] ∧
      (stateWithFlags 0).ringbuffer = [] :=
  ⟨rfl, by decide, by decide, rfl⟩

/-- C3 (amended): with a zero surprise-flag word every fast-path hook calls no
slow-path handler and leaves the flag word, the heap and the return slot
unchanged.  With tracing off it makes no external call at all and leaves the
whole state unchanged; with tracing on it makes exactly one external call, the
emission of the enter/exit record of the traced frame. -/
theorem fast_path_flags_zero (env : Externals) (s : VMState)
    (ar suspending resumableAR : ActRec) (funcType : Int) (child : ObjectData)
    (retval : TypedValue) (fault : Fault) (hz : s.surpriseFlags = 0) :
    ((FunctionCall env ar funcType s).handlerCalls = [] ∧
      (FunctionResumeAwait env ar s).handlerCalls = [] ∧
      (FunctionResumeYield env ar s).handlerCalls = [] ∧
      (FunctionSuspendE env suspending resumableAR s).handlerCalls = [] ∧
      (FunctionSuspendR env suspending child s).handlerCalls = [] ∧
      (FunctionReturn env ar retval s).handlerCalls = [] ∧
      (FunctionUnwind env ar fault s).handlerCalls = []) ∧
    (((FunctionCall env ar funcType s).state.surpriseFlags = 0 ∧
        (FunctionCall env ar funcType s).state.heap = s.heap) ∧
      ((FunctionResumeAwait env ar s).state.surpriseFlags = 0 ∧
        (FunctionResumeAwait env ar s).state.heap = s.heap) ∧
      ((FunctionResumeYield env ar s).state.surpriseFlags = 0 ∧
        (FunctionResumeYield env ar s).state.heap = s.heap) ∧
      ((FunctionSuspendE env suspending resumableAR s).state.surpriseFlags = 0 ∧
        (FunctionSuspendE env suspending resumableAR s).state.heap = s.heap) ∧
      ((FunctionSuspendR env suspending child s).state.surpriseFlags = 0 ∧
        (FunctionSuspendR env suspending child s).state.heap = s.heap) ∧
      ((FunctionReturn env ar retval s).state.surpriseFlags = 0 ∧
        (FunctionReturn env ar retval s).state.heap = s.heap ∧
        (FunctionReturn env ar retval s).retval = retval) ∧
      ((FunctionUnwind env ar fault s).state.surpriseFlags = 0 ∧
        (FunctionUnwind env ar fault s).state.heap = s.heap)) ∧
    (env.moduleEnabled .ringbuffer 1 s = false →
      FunctionCall env ar funcType s = { result := .ok true, state := s, calls := [] } ∧
      FunctionResumeAwait env ar s = { result := .ok (), state := s, calls := [] } ∧
      FunctionResumeYield env ar s = { result := .ok (), state := s, calls := [] } ∧
      FunctionSuspendE env suspending resumableAR s =
        { result := .ok (), state := s, calls := [] } ∧
      FunctionSuspendR env suspending child s =
        { result := .ok (), state := s, calls := [] } ∧
      FunctionReturn env ar retval s =
        { result := .ok (), state := s, calls := [], retval := retval } ∧
      FunctionUnwind env ar fault s = { result := .ok (), state := s, calls := [] }) ∧
    (env.moduleEnabled .ringbuffer 1 s = true →
      (FunctionCall env ar funcType s).calls =
        [.ringbufferMsg ar.m_func.fullName.data ar.m_func.fullName.size .RBTypeFuncEntry] ∧
      (FunctionResumeAwait env ar s).calls =
        [.ringbufferMsg ar.m_func.fullName.data ar.m_func.fullName.size .RBTypeFuncEntry] ∧
      (FunctionResumeYield env ar s).calls =
        [.ringbufferMsg ar.m_func.fullName.data ar.m_func.fullName.size .RBTypeFuncEntry] ∧
      (FunctionSuspendE env suspending resumableAR s).calls =
        [.ringbufferMsg resumableAR.m_func.fullName.data resumableAR.m_func.fullName.size
          .RBTypeFuncExit] ∧
      (FunctionSuspendR env suspending child s).calls =
        [.ringbufferMsg suspending.m_func.fullName.data suspending.m_func.fullName.size
          .RBTypeFuncExit] ∧
      (FunctionReturn env ar retval s).calls =
        [.ringbufferMsg ar.m_func.fullName.data ar.m_func.fullName.size .RBTypeFuncExit] ∧
      (FunctionUnwind env ar fault s).calls =
        [.ringbufferMsg ar.m_func.fullName.data ar.m_func.fullName.size .RBTypeFuncExit]) := by
  have fen := fun a => ringbufferEnter_frame env a s
  have fex := fun a => ringbufferExit_frame env a s
  have zen : ∀ a, (ringbufferEnter env a s).state.surpriseFlags = 0 :=
    fun a => by rw [(fen a).1]; exact hz
  have zex : ∀ a, (ringbufferExit env a s).state.surpriseFlags = 0 :=
    fun a => by rw [(fex a).1]; exact hz
  have hcall := guardedCall_quiet
  refine ⟨⟨?_, ?_, ?_, ?_, ?_, ?_, ?_⟩, ⟨?_, ?_, ?_, ?_, ?_, ?_, ?_⟩, ?_, ?_⟩
  · exact (FunctionCall_flags_zero_frame env ar funcType s hz).1
  · exact guardedCall_handlerCalls_clear _ _ _ (zen ar) (ringbufferEnter_handlers env ar s)
  · exact guardedCall_handlerCalls_clear _ _ _ (zen ar) (ringbufferEnter_handlers env ar s)
  · exact guardedCall_handlerCalls_clear _ _ _ (zex resumableAR)
      (ringbufferExit_handlers env resumableAR s)
  · exact guardedCall_handlerCalls_clear _ _ _ (zex suspending)
      (ringbufferExit_handlers env suspending s)
  · exact guardedCall_handlerCalls_clear _ _ _ (zex ar) (ringbufferExit_handlers env ar s)
  · exact guardedCall_handlerCalls_clear _ _ _ (zex ar) (ringbufferExit_handlers env ar s)
  · exact ⟨by rw [(FunctionCall_flags_zero_frame env ar funcType s hz).2.1]; exact zen ar,
      by rw [(FunctionCall_flags_zero_frame env ar funcType s hz).2.1]; exact (fen ar).2⟩
  · exact guardedCall_zero_frame _ _ _ s (zen ar) (fen ar).2
  · exact guardedCall_zero_frame _ _ _ s (zen ar) (fen ar).2
  · exact guardedCall_zero_frame _ _ _ s (zex resumableAR) (fex resumableAR).2
  · exact guardedCall_zero_frame _ _ _ s (zex suspending) (fex suspending).2
  · exact ⟨(guardedCall_zero_frame _ _ _ s (zex ar) (fex ar).2).1,
      (guardedCall_zero_frame _ _ _ s (zex ar) (fex ar).2).2, rfl⟩
  · exact guardedCall_zero_frame _ _ _ s (zex ar) (fex ar).2
  · intro hoff
    have hq : ∀ (c : ExtCall) (h : VMState → Except CppException Unit × VMState),
        guardedCall { result := .ok (), state := s, calls := [] } c h =
          { result := .ok (), state := s, calls := [] } :=
      fun c h => guardedCall_clear _ c h rfl hz
    refine ⟨?_, ?_, ?_, ?_, ?_, ?_, ?_⟩
    · rw [FunctionCall_clear env ar funcType s (by rw [ringbufferEnter_off env ar s hoff]) hz,
        ringbufferEnter_off env ar s hoff]
    · unfold FunctionResumeAwait; rw [ringbufferEnter_off env ar s hoff]; exact hq _ _
    · unfold FunctionResumeYield; rw [ringbufferEnter_off env ar s hoff]; exact hq _ _
    · unfold FunctionSuspendE; rw [ringbufferExit_off env resumableAR s hoff]; exact hq _ _
    · unfold FunctionSuspendR; rw [ringbufferExit_off env suspending s hoff]; exact hq _ _
    · unfold FunctionReturn; rw [ringbufferExit_off env ar s hoff, hq]
    · unfold FunctionUnwind; rw [ringbufferExit_off env ar s hoff]; exact hq _ _
  · intro hon
    refine ⟨?_, ?_, ?_, ?_, ?_, ?_, ?_⟩
    · rw [(FunctionCall_flags_zero_frame env ar funcType s hz).2.2,
        ringbufferEnter_on env ar s hon]
    · unfold FunctionResumeAwait
      rw [(hcall _ _ _ (zen ar)).2, ringbufferEnter_on env ar s hon]
    · unfold FunctionResumeYield
      rw [(hcall _ _ _ (zen ar)).2, ringbufferEnter_on env ar s hon]
    · unfold FunctionSuspendE
      rw [(hcall _ _ _ (zex resumableAR)).2, ringbufferExit_on env resumableAR s hon]
    · unfold FunctionSuspendR
      rw [(hcall _ _ _ (zex suspending)).2, ringbufferExit_on env suspending s hon]
    · unfold FunctionReturn
      show (guardedCall _ _ _).calls = _
      rw [(hcall _ _ _ (zex ar)).2, ringbufferExit_on env ar s hon]
    · unfold FunctionUnwind
      rw [(hcall _ _ _ (zex ar)).2, ringbufferExit_on env ar s hon]

/-- Witness for C3 (amended): flag word zero; with tracing off `FunctionCall` is
silent, with tracing on `FunctionReturn` only emits the exit record of `foo`. -/
theorem fast_path_flags_zero_witness :
    FunctionCall (sampleExternals false appendSink) fooFrame 0 (stateWithFlags 0) =
        { result := .ok true, state := stateWithFlags 0, calls := [] } ∧
      (FunctionReturn (sampleExternals true appendSink) fooFrame tv42 (stateWithFlags 0)).calls =
        [.ringbufferMsg "foo" 3 .RBTypeFuncExit] :=
  ⟨((fast_path_flags_zero (sampleExternals false appendSink) (stateWithFlags 0) fooFrame
      fooFrame barFrame 0 { objId := 5 } tv42 { faultId := 9 } rfl).2.2.1 rfl).1,
   ((fast_path_flags_zero (sampleExternals true appendSink) (stateWithFlags 0) fooFrame
      fooFrame barFrame 0 { objId := 5 } tv42 { faultId := 9 } rfl).2.2.2 rfl).2.2.2.2.2.1⟩

/-- C4: whatever the surprise-flag word, `FunctionCallUserFuncArray` makes exactly
one external call, `onFunctionCallUserFuncArray` with the same two arguments, in
the state it was entered in; nothing gates it and its outcome is the handler's. -/
theorem FunctionCallUserFuncArray_always_notifies (env : Externals) (invoke_ar : ActRec)
    (func : Func) (s : VMState) :
    (FunctionCallUserFuncArray env invoke_ar func s).calls =
        [.onFunctionCallUserFuncArray invoke_ar func] ∧
      (FunctionCallUserFuncArray env invoke_ar func s).handlerCalls =
        [.onFunctionCallUserFuncArray invoke_ar func] ∧
      (FunctionCallUserFuncArray env invoke_ar func s).result =
        (env.onFunctionCallUserFuncArray invoke_ar func s).1 ∧
      (FunctionCallUserFuncArray env invoke_ar func s).state =
        (env.onFunctionCallUserFuncArray invoke_ar func s).2 :=
  ⟨rfl, rfl, rfl, rfl⟩

/-- C5: `FunctionPreReturn` runs `onFunctionPreReturn` exactly once, on the frame
and the slot it was given and in the state it was entered in, when
`checkConditionFlags()` is true: its result, the state and the slot afterwards
are those the handler left.  When the check is false it makes no call and
changes nothing.  Two states that agree on the condition check give the same
calls, whatever their surprise-flag words. -/
theorem FunctionPreReturn_gated_by_condition (env : Externals) (ar : ActRec)
    (retval : TypedValue) (s₁ s₂ : VMState)
    (hagree : env.checkConditionFlags s₁ = env.checkConditionFlags s₂) :
    (FunctionPreReturn env ar retval s₁).calls =
        (if env.checkConditionFlags s₁ = true then [.onFunctionPreReturn ar retval] else []) ∧
      (FunctionPreReturn env ar retval s₁).calls = (FunctionPreReturn env ar retval s₂).calls ∧
      (env.checkConditionFlags s₁ = true →
        FunctionPreReturn env ar retval s₁ =
          { result := (env.onFunctionPreReturn ar retval s₁).1
            retval := (env.onFunctionPreReturn ar retval s₁).2.1
            state := (env.onFunctionPreReturn ar retval s₁).2.2
            calls := [.onFunctionPreReturn ar retval] }) ∧
      (env.checkConditionFlags s₁ = false →
        FunctionPreReturn env ar retval s₁ =
          { result := .ok (), retval := retval, state := s₁, calls := [] }) := by
  refine ⟨?_, ?_, ?_, ?_⟩
  · unfold FunctionPreReturn
    cases env.checkConditionFlags s₁ <;> simp
  · unfold FunctionPreReturn
    rw [← hagree]
    cases env.checkConditionFlags s₁ <;> simp
  · intro h
    unfold FunctionPreReturn
    simp [h]
  · intro h
    unfold FunctionPreReturn
    simp [h]

/-- Witness for C5: flag words 0 and 8, condition check true in both; the sample
handler rewrites the slot from 42 to 43 and marks the heap with 15. -/
theorem FunctionPreReturn_gated_by_condition_witness :
    (stateWithFlags 0).surpriseFlags ≠ (stateWithFlags 8).surpriseFlags ∧
      (FunctionPreReturn (sampleExternals false appendSink) fooFrame tv42
        (stateWithFlags 0)).calls = [.onFunctionPreReturn fooFrame tv42] ∧
      (FunctionPreReturn (sampleExternals false appendSink) fooFrame tv42
        (stateWithFlags 0)).calls =
      (FunctionPreReturn (sampleExternals false appendSink) fooFrame tv42
        (stateWithFlags 8)).calls ∧
      FunctionPreReturn (sampleExternals false appendSink) fooFrame tv42 (stateWithFlags 0) =
        { result := .ok ()
          retval := { m_data := 43, m_type := 10 }
          state := { surpriseFlags := 0, ringbuffer := [], heap := [15, 1] }
          calls := [.onFunctionPreReturn fooFrame tv42] } ∧
      FunctionPreReturn (sampleExternals false appendSink) fooFrame tv42
          { surpriseFlags := 8, ringbuffer := [], heap := [] } =
        { result := .ok (), retval := tv42
          state := { surpriseFlags := 8, ringbuffer := [], heap := [] }, calls := [] } :=
  ⟨by decide,
   (FunctionPreReturn_gated_by_condition (sampleExternals false appendSink) fooFrame tv42
      (stateWithFlags 0) (stateWithFlags 8) rfl).1,
   (FunctionPreReturn_gated_by_condition (sampleExternals false appendSink) fooFrame tv42
      (stateWithFlags 0) (stateWithFlags 8) rfl).2.1,
   (FunctionPreReturn_gated_by_condition (sampleExternals false appendSink) fooFrame tv42
      (stateWithFlags 0) (stateWithFlags 8) rfl).2.2.1 rfl,
   (FunctionPreReturn_gated_by_condition (sampleExternals false appendSink) fooFrame tv42
      { surpriseFlags := 8, ringbuffer := [], heap := [] }
      { surpriseFlags := 8, ringbuffer := [], heap := [] } rfl).2.2.2 rfl⟩

/-- C6: `onFunctionReturnJit` makes exactly one external call, `onFunctionReturn`
with the same frame and value, and never calls `onFunctionPreReturn`. -/
theorem onFunctionReturnJit_only_return (env : Externals) (ar : ActRec) (retval : TypedValue)
    (s : VMState) :
    (onFunctionReturnJit env ar retval s).calls = [.onFunctionReturn ar retval] ∧
      (∀ a v, ExtCall.onFunctionPreReturn a v ∉ (onFunctionReturnJit env ar retval s).calls) ∧
      (onFunctionReturnJit env ar retval s).result = (env.onFunctionReturn ar retval s).1 := by
  refine ⟨rfl, ?_, rfl⟩
  intro a v
  simp [onFunctionReturnJit]

/-- C7: `FunctionReturn` leaves the slot referenced by `retval` as it was, whether
or not the slow path ran and whether it returned or threw; the only handler it
can call is `onFunctionReturn`, with a copy of the slot. -/
theorem FunctionReturn_preserves_slot (env : Externals) (ar : ActRec) (retval : TypedValue)
    (s : VMState) :
    (FunctionReturn env ar retval s).retval = retval ∧
      ((FunctionReturn env ar retval s).handlerCalls = [] ∨
        (FunctionReturn env ar retval s).handlerCalls = [.onFunctionReturn ar retval]) :=
  ⟨rfl, guardedCall_handlerCalls_cases _ _ _ (ringbufferExit_handlers env ar s) rfl⟩

/-- C8: with tracing enabled `FunctionCall` emits exactly one trace record,
whatever the flag word: it hands (full name of the function of `ar`, its
length, `RBTypeFuncEntry`) to the sink, applied to the ring buffer of the entry
state.  That is its first external call, so it precedes `onFunctionCall`, the
only other call there can be, and `onFunctionCall` runs on the state the
emission left.  With tracing disabled no record is emitted and the ring buffer
is not touched by the hook. -/
theorem FunctionCall_trace_record (env : Externals) (ar : ActRec) (funcType : Int)
    (s : VMState) :
    (env.moduleEnabled .ringbuffer 1 s = true →
      (FunctionCall env ar funcType s).traceCalls =
          [.ringbufferMsg ar.m_func.fullName.data ar.m_func.fullName.size .RBTypeFuncEntry] ∧
        (FunctionCall env ar funcType s).calls =
          .ringbufferMsg ar.m_func.fullName.data ar.m_func.fullName.size .RBTypeFuncEntry ::
            (FunctionCall env ar funcType s).handlerCalls ∧
        ((FunctionCall env ar funcType s).handlerCalls = [] ∨
          (FunctionCall env ar funcType s).handlerCalls = [.onFunctionCall ar funcType])) ∧
    (env.moduleEnabled .ringbuffer 1 s = false →
      (FunctionCall env ar funcType s).traceCalls = []) ∧
    (env.moduleEnabled .ringbuffer 1 s = true →
      (∀ e, (env.ringbufferMsg ar.m_func.fullName.data ar.m_func.fullName.size
          .RBTypeFuncEntry s.ringbuffer).1 = .error e →
        FunctionCall env ar funcType s =
          { result := .error e
            state := { s with ringbuffer := (env.ringbufferMsg ar.m_func.fullName.data
              ar.m_func.fullName.size .RBTypeFuncEntry s.ringbuffer).2 }
            calls := [.ringbufferMsg ar.m_func.fullName.data ar.m_func.fullName.size
              .RBTypeFuncEntry] }) ∧
      ((env.ringbufferMsg ar.m_func.fullName.data ar.m_func.fullName.size
          .RBTypeFuncEntry s.ringbuffer).1 = .ok () → s.surpriseFlags = 0 →
        FunctionCall env ar funcType s =
          { result := .ok true
            state := { s with ringbuffer := (env.ringbufferMsg ar.m_func.fullName.data
              ar.m_func.fullName.size .RBTypeFuncEntry s.ringbuffer).2 }
            calls := [.ringbufferMsg ar.m_func.fullName.data ar.m_func.fullName.size
              .RBTypeFuncEntry] }) ∧
      ((env.ringbufferMsg ar.m_func.fullName.data ar.m_func.fullName.size
          .RBTypeFuncEntry s.ringbuffer).1 = .ok () → s.surpriseFlags ≠ 0 →
        FunctionCall env ar funcType s =
          { result := (env.onFunctionCall ar funcType
              { s with ringbuffer := (env.ringbufferMsg ar.m_func.fullName.data
                ar.m_func.fullName.size .RBTypeFuncEntry s.ringbuffer).2 }).1
            state := (env.onFunctionCall ar funcType
              { s with ringbuffer := (env.ringbufferMsg ar.m_func.fullName.data
                ar.m_func.fullName.size .RBTypeFuncEntry s.ringbuffer).2 }).2
            calls := [.ringbufferMsg ar.m_func.fullName.data ar.m_func.fullName.size
              .RBTypeFuncEntry, .onFunctionCall ar funcType] })) ∧
    (env.moduleEnabled .ringbuffer 1 s = false →
      (s.surpriseFlags = 0 →
        FunctionCall env ar funcType s = { result := .ok true, state := s, calls := [] }) ∧
      (s.surpriseFlags ≠ 0 →
        FunctionCall env ar funcType s =
          { result := (env.onFunctionCall ar funcType s).1
            state := (env.onFunctionCall ar funcType s).2
            calls := [.onFunctionCall ar funcType] })) := by
  refine ⟨?_, ?_, fun hon => FunctionCall_tracing_on env ar funcType s hon,
    fun hoff => FunctionCall_tracing_off env ar funcType s hoff⟩
  · intro hon
    have hcalls := congrArg Outcome.calls (ringbufferEnter_on env ar s hon)
    simp only [] at hcalls
    cases hr : (ringbufferEnter env ar s).result with
    | error e =>
      rw [FunctionCall_throw env ar funcType s e hr]
      simp [Outcome.traceCalls, Outcome.handlerCalls, hcalls, ExtCall.isTrace,
        ExtCall.isHandler]
    | ok u =>
      cases u
      by_cases hf : s.surpriseFlags = 0
      · rw [FunctionCall_clear env ar funcType s hr hf]
        simp [Outcome.traceCalls, Outcome.handlerCalls, hcalls, ExtCall.isTrace,
          ExtCall.isHandler]
      · rw [FunctionCall_set env ar funcType s hr hf]
        simp [Outcome.traceCalls, Outcome.handlerCalls, hcalls, ExtCall.isTrace,
          ExtCall.isHandler]
  · intro hoff
    have hen := ringbufferEnter_off env ar s hoff
    have hr : (ringbufferEnter env ar s).result = .ok () := by rw [hen]
    by_cases hf : s.surpriseFlags = 0
    · rw [FunctionCall_clear env ar funcType s hr hf, hen]
      rfl
    · rw [FunctionCall_set env ar funcType s hr hf, hen]
      rfl

/-- Witness for C8: tracing on; one record `("foo", 3, RBTypeFuncEntry)` first,
with flag word 0 and with flag word 4, and it is in the ring buffer afterwards;
tracing off, no record and an empty ring buffer. -/
theorem FunctionCall_trace_record_witness :
    (FunctionCall (sampleExternals true appendSink) fooFrame 0 (stateWithFlags 0)).traceCalls =
        [.ringbufferMsg "foo" 3 .RBTypeFuncEntry] ∧
      (FunctionCall (sampleExternals true appendSink) fooFrame 0 (stateWithFlags 4)).calls =
        [.ringbufferMsg "foo" 3 .RBTypeFuncEntry, .onFunctionCall fooFrame 0] ∧
      (FunctionCall (sampleExternals false appendSink) fooFrame 0 (stateWithFlags 4)).traceCalls
        = [] ∧
      FunctionCall (sampleExternals true appendSink) fooFrame 0 (stateWithFlags 0) =
        { result := .ok true
          state := { surpriseFlags := 0
                     ringbuffer := [{ msg := "foo", len := 3, type := .RBTypeFuncEntry }]
                     heap := [1] }
          calls := [.ringbufferMsg "foo" 3 .RBTypeFuncEntry] } ∧
      FunctionCall (sampleExternals false appendSink) fooFrame 0 (stateWithFlags 0) =
        { result := .ok true, state := stateWithFlags 0, calls := [] } :=
  ⟨((FunctionCall_trace_record (sampleExternals true appendSink) fooFrame 0
      (stateWithFlags 0)).1 rfl).1,
   ((FunctionCall_trace_record (sampleExternals true appendSink) fooFrame 0
      (stateWithFlags 4)).1 rfl).2.1,
   (FunctionCall_trace_record (sampleExternals false appendSink) fooFrame 0
      (stateWithFlags 4)).2.1 rfl,
   ((FunctionCall_trace_record (sampleExternals true appendSink) fooFrame 0
      (stateWithFlags 0)).2.2.1 rfl).2.1 rfl rfl,
   ((FunctionCall_trace_record (sampleExternals false appendSink) fooFrame 0
      (stateWithFlags 0)).2.2.2 rfl).1 rfl⟩

/-- C9: `checkSurpriseFlags()` answers `true` exactly when the flag word is
non-zero, in particular for each single bit of the 64-bit word, the top bit
included, and it leaves the state, hence the flag word, as it was. -/
theorem checkSurpriseFlags_iff_nonzero (s : VMState) :
    ((checkSurpriseFlags s).1 = true ↔ s.surpriseFlags ≠ 0) ∧
      (checkSurpriseFlags s).2 = s ∧
      (checkSurpriseFlags s).2.surpriseFlags = s.surpriseFlags ∧
      (∀ i, i < 64 →
        (checkSurpriseFlags { s with surpriseFlags := ssizeOfBits (2 ^ i) }).1 = true) := by
  refine ⟨by simp [checkSurpriseFlags], rfl, rfl, ?_⟩
  intro i hi
  simp [checkSurpriseFlags, ssizeOfBits_pow_ne_zero i hi]

/-- Witness for C9: bit 63 alone, the word `-2^63` as an `ssize_t`. -/
theorem checkSurpriseFlags_iff_nonzero_witness :
    ssizeOfBits (2 ^ 63) = -9223372036854775808 ∧
      (checkSurpriseFlags { stateWithFlags 0 with surpriseFlags := ssizeOfBits (2 ^ 63) }).1
        = true :=
  ⟨by decide, (checkSurpriseFlags_iff_nonzero (stateWithFlags 0)).2.2.2 63 (by decide)⟩

/-- Counterexample to C10 as stated: tracing on, flag word 4, and a trace sink
whose emission throws.  `FunctionCall` and `FunctionReturn` surface that
exception to their caller and call no handler, whereas with a sink that
returns they call `onFunctionCall` and `onFunctionReturn`. -/
theorem trace_fault_counterexample :
    (FunctionCall (sampleExternals true throwingSink) fooFrame 0 (stateWithFlags 4)).result
        = .error { code := 7 } ∧
      (FunctionCall (sampleExternals true throwingSink) fooFrame 0
        (stateWithFlags 4)).handlerCalls = [] ∧
      (FunctionCall (sampleExternals true appendSink) fooFrame 0
        (stateWithFlags 4)).handlerCalls = [.onFunctionCall fooFrame 0] ∧
      (FunctionReturn (sampleExternals true throwingSink) fooFrame tv42
        (stateWithFlags 4)).result = .error { code := 7 } ∧
      (FunctionReturn (sampleExternals true throwingSink) fooFrame tv42
        (stateWithFlags 4)).handlerCalls = [] ∧
      (FunctionReturn (sampleExternals true appendSink) fooFrame tv42
        (stateWithFlags 4)).handlerCalls = [.onFunctionReturn fooFrame tv42] :=
  ⟨rfl, by decide, by decide, rfl, by decide, by decide⟩

/-- C10 (amended): the hooks do not catch what the trace emission throws.  If
the trace step of a hook throws, the hook throws the same exception and calls
no slow-path handler; if the trace step returns, whatever the sink did with the
record, the hook checks the flag word and dispatches on it alone: its own
handler once when the word is non-zero, no handler when it is zero. -/
theorem trace_fault_propagates (env : Externals) (s : VMState)
    (ar suspending resumableAR : ActRec) (funcType : Int) (child : ObjectData)
    (retval : TypedValue) (fault : Fault) :
    (∀ e, (ringbufferEnter env ar s).result = .error e →
      ((FunctionCall env ar funcType s).result = .error e ∧
        (FunctionCall env ar funcType s).handlerCalls = []) ∧
      ((FunctionResumeAwait env ar s).result = .error e ∧
        (FunctionResumeAwait env ar s).handlerCalls = []) ∧
      ((FunctionResumeYield env ar s).result = .error e ∧
        (FunctionResumeYield env ar s).handlerCalls = [])) ∧
    (∀ e, (ringbufferExit env resumableAR s).result = .error e →
      (FunctionSuspendE env suspending resumableAR s).result = .error e ∧
        (FunctionSuspendE env suspending resumableAR s).handlerCalls = []) ∧
    (∀ e, (ringbufferExit env suspending s).result = .error e →
      (FunctionSuspendR env suspending child s).result = .error e ∧
        (FunctionSuspendR env suspending child s).handlerCalls = []) ∧
    (∀ e, (ringbufferExit env ar s).result = .error e →
      ((FunctionReturn env ar retval s).result = .error e ∧
        (FunctionReturn env ar retval s).handlerCalls = []) ∧
      ((FunctionUnwind env ar fault s).result = .error e ∧
        (FunctionUnwind env ar fault s).handlerCalls = [])) ∧
    ((ringbufferEnter env ar s).result = .ok () →
      ((FunctionCall env ar funcType s).handlerCalls =
          (if s.surpriseFlags ≠ 0 then [.onFunctionCall ar funcType] else []) ∧
        (FunctionCall env ar funcType s).result =
          (if s.surpriseFlags ≠ 0
            then (env.onFunctionCall ar funcType (ringbufferEnter env ar s).state).1
            else .ok true)) ∧
      (FunctionResumeAwait env ar s).handlerCalls =
        (if s.surpriseFlags ≠ 0 then [.onFunctionResumeAwait ar] else []) ∧
      (FunctionResumeYield env ar s).handlerCalls =
        (if s.surpriseFlags ≠ 0 then [.onFunctionResumeYield ar] else [])) ∧
    ((ringbufferExit env resumableAR s).result = .ok () →
      (FunctionSuspendE env suspending resumableAR s).handlerCalls =
        (if s.surpriseFlags ≠ 0 then [.onFunctionSuspendE suspending resumableAR] else [])) ∧
    ((ringbufferExit env suspending s).result = .ok () →
      (FunctionSuspendR env suspending child s).handlerCalls =
        (if s.surpriseFlags ≠ 0 then [.onFunctionSuspendR suspending child] else [])) ∧
    ((ringbufferExit env ar s).result = .ok () →
      (FunctionReturn env ar retval s).handlerCalls =
        (if s.surpriseFlags ≠ 0 then [.onFunctionReturn ar retval] else []) ∧
      (FunctionUnwind env ar fault s).handlerCalls =
        (if s.surpriseFlags ≠ 0 then [.onFunctionUnwind ar fault] else [])) := by
  have hEn := fun a => ringbufferEnter_handlers env a s
  have hEx := fun a => ringbufferExit_handlers env a s
  have fen : ∀ a, (ringbufferEnter env a s).state.surpriseFlags = s.surpriseFlags :=
    fun a => (ringbufferEnter_frame env a s).1
  have fex : ∀ a, (ringbufferExit env a s).state.surpriseFlags = s.surpriseFlags :=
    fun a => (ringbufferExit_frame env a s).1
  refine ⟨?_, ?_, ?_, ?_, ?_, ?_, ?_, ?_⟩
  · intro e he
    refine ⟨?_, guardedCall_rethrows _ _ _ e he (hEn ar), guardedCall_rethrows _ _ _ e he (hEn ar)⟩
    rw [FunctionCall_throw env ar funcType s e he]
    exact ⟨rfl, hEn ar⟩
  · intro e he
    exact guardedCall_rethrows _ _ _ e he (hEx resumableAR)
  · intro e he
    exact guardedCall_rethrows _ _ _ e he (hEx suspending)
  · intro e he
    exact ⟨guardedCall_rethrows _ _ _ e he (hEx ar), guardedCall_rethrows _ _ _ e he (hEx ar)⟩
  · intro hr
    have h1 := (guardedCall_returned (ringbufferEnter env ar s) (.onFunctionResumeAwait ar)
      (env.onFunctionResumeAwait ar) hr (hEn ar) rfl).1
    have h2 := (guardedCall_returned (ringbufferEnter env ar s) (.onFunctionResumeYield ar)
      (env.onFunctionResumeYield ar) hr (hEn ar) rfl).1
    rw [fen ar] at h1 h2
    refine ⟨?_, h1, h2⟩
    by_cases hf : s.surpriseFlags = 0
    · rw [FunctionCall_clear env ar funcType s hr hf]
      simp [Outcome.handlerCalls, hEn ar, hf]
    · rw [FunctionCall_set env ar funcType s hr hf]
      simp [Outcome.handlerCalls, hEn ar, hf, ExtCall.isHandler]
  · intro hr
    have h1 := (guardedCall_returned (ringbufferExit env resumableAR s)
      (.onFunctionSuspendE suspending resumableAR)
      (env.onFunctionSuspendE suspending resumableAR) hr (hEx resumableAR) rfl).1
    rw [fex resumableAR] at h1
    exact h1
  · intro hr
    have h1 := (guardedCall_returned (ringbufferExit env suspending s)
      (.onFunctionSuspendR suspending child)
      (env.onFunctionSuspendR suspending child) hr (hEx suspending) rfl).1
    rw [fex suspending] at h1
    exact h1
  · intro hr
    have h1 := (guardedCall_returned (ringbufferExit env ar s) (.onFunctionReturn ar retval)
      (env.onFunctionReturn ar retval) hr (hEx ar) rfl).1
    have h2 := (guardedCall_returned (ringbufferExit env ar s) (.onFunctionUnwind ar fault)
      (env.onFunctionUnwind ar fault) hr (hEx ar) rfl).1
    rw [fex ar] at h1 h2
    exact ⟨h1, h2⟩

/-- Witness for C10 (amended): a throwing sink makes `FunctionUnwind` throw; a
sink that returns lets `FunctionSuspendR` dispatch. -/
theorem trace_fault_propagates_witness :
    ((FunctionUnwind (sampleExternals true throwingSink) fooFrame { faultId := 9 }
        (stateWithFlags 4)).result = .error { code := 7 } ∧
      (FunctionUnwind (sampleExternals true throwingSink) fooFrame { faultId := 9 }
        (stateWithFlags 4)).handlerCalls = []) ∧
      (FunctionSuspendR (sampleExternals true appendSink) barFrame { objId := 5 }
        (stateWithFlags 4)).handlerCalls = [.onFunctionSuspendR barFrame { objId := 5 }] :=
  ⟨((trace_fault_propagates (sampleExternals true throwingSink) (stateWithFlags 4) fooFrame
      barFrame fooFrame 0 { objId := 5 } tv42 { faultId := 9 }).2.2.2.1
      { code := 7 } rfl).2,
   (trace_fault_propagates (sampleExternals true appendSink) (stateWithFlags 4) fooFrame
      barFrame fooFrame 0 { objId := 5 } tv42 { faultId := 9 }).2.2.2.2.2.2.1 rfl⟩

end HPHP
